import Mathlib

/-!
Verification of the form-automation service core
(`src/form-automation-service/app`): the field-mapping registry
(`field_mapping.py`), the per-field fill pipeline of the page object
(`page_objects/form_a28_page.py`), and the orchestration / browser-manager
logic (`automation.py`), shallowly embedded in Lean.

External browser effects (Playwright calls) are modelled by explicit
"world" records that fix the outcome of each primitive page interaction;
the embedded code is then a pure function of the world, translated
statement-by-statement from the Python source.
-/

/-! ## Data model (`field_mapping.py`, `schemas.py`) -/

/-- `FieldType` from `field_mapping.py`. -/
inductive FieldType
  | text
  | select
  | radio
  | checkbox
  | date
  | email
  | tel
deriving DecidableEq

/-- `FieldMapping` from `field_mapping.py` (a NamedTuple). -/
structure FieldMapping where
  field_name : String
  selector : String
  field_type : FieldType
  required : Bool := false
  value_for_true : Option String := none
deriving DecidableEq

/-- `FieldStatus` from `schemas.py`. -/
inductive FieldStatus
  | filled
  | skipped
  | failed
deriving DecidableEq

/-- `FieldResult` from `schemas.py`. -/
structure FieldResult where
  fieldName : String
  status : FieldStatus
  value : Option String
  error : Option String
deriving DecidableEq

/-- `FillResult` from `schemas.py` (screenshot abstracted to its base64
string). -/
structure FillResult where
  success : Bool
  filledFields : List FieldResult
  skippedFields : List FieldResult
  failedFields : List FieldResult
  screenshotBase64 : Option String
  durationMs : Nat
  error : Option String
deriving DecidableEq

/-- A scalar value supplied by the caller for one field: Python
`Optional[str | bool]` with the `None` case handled by `Option` outside. -/
inductive Value
  | str (s : String)
  | bool (b : Bool)
deriving DecidableEq

/-- Python `str(value)` for `value : str | bool`. -/
def Value.toStr : Value → String
  | Value.str s => s
  | Value.bool b => if b then "True" else "False"

/-- Python `bool(value)` for `value : str | bool`
(`bool("") = False`, any other string is truthy). -/
def Value.toBool : Value → Bool
  | Value.str s => !(s == "")
  | Value.bool b => b

/-- The caller-supplied record (`data.model_dump()`), keyed by the Python
field names. -/
def Record : Type := List (String × Value)

/-- Python `data_dict.get(name)`. -/
def Record.get (data : Record) (name : String) : Option Value :=
  (List.find? (fun p => p.1 == name) data).map Prod.snd

/-! ### The field-mapping registry (`field_mapping.py`, verbatim) -/

def ATTORNEY_FIELDS : List FieldMapping :=
  [ { field_name := "online_account_number", selector := "#attorney-online-account", field_type := FieldType.text }
  , { field_name := "attorney_last_name", selector := "#attorney-last-name", field_type := FieldType.text, required := true }
  , { field_name := "attorney_first_name", selector := "#attorney-first-name", field_type := FieldType.text, required := true }
  , { field_name := "attorney_middle_name", selector := "#attorney-middle-name", field_type := FieldType.text }
  , { field_name := "street", selector := "#attorney-street", field_type := FieldType.text, required := true }
  , { field_name := "apt_ste_flr", selector := "#attorney-apt-type", field_type := FieldType.select }
  , { field_name := "apt_ste_flr_number", selector := "#attorney-apt-number", field_type := FieldType.text }
  , { field_name := "city", selector := "#attorney-city", field_type := FieldType.text, required := true }
  , { field_name := "state", selector := "#attorney-state", field_type := FieldType.select, required := true }
  , { field_name := "zip_code", selector := "#attorney-zip", field_type := FieldType.text, required := true }
  , { field_name := "country", selector := "#attorney-country", field_type := FieldType.text }
  , { field_name := "daytime_phone", selector := "#attorney-daytime-phone", field_type := FieldType.tel, required := true }
  , { field_name := "mobile_phone", selector := "#attorney-mobile-phone", field_type := FieldType.tel }
  , { field_name := "email", selector := "#attorney-email", field_type := FieldType.email }
  ]

def ELIGIBILITY_FIELDS : List FieldMapping :=
  [ { field_name := "is_attorney", selector := "#eligibility-attorney", field_type := FieldType.checkbox, value_for_true := some "checked" }
  , { field_name := "bar_number", selector := "#eligibility-bar-number", field_type := FieldType.text }
  , { field_name := "licensing_authority", selector := "#eligibility-licensing-authority", field_type := FieldType.text }
  , { field_name := "is_subject_to_orders", selector := "input[name=\"subject-to-orders\"]", field_type := FieldType.radio }
  , { field_name := "law_firm_or_organization", selector := "#eligibility-law-firm", field_type := FieldType.text }
  , { field_name := "is_accredited_rep", selector := "#eligibility-accredited-rep", field_type := FieldType.checkbox, value_for_true := some "checked" }
  , { field_name := "organization_name", selector := "#eligibility-organization-name", field_type := FieldType.text }
  , { field_name := "accreditation_date", selector := "#eligibility-accreditation-date", field_type := FieldType.date }
  , { field_name := "is_associated_with_attorney", selector := "#eligibility-associated-attorney", field_type := FieldType.checkbox, value_for_true := some "checked" }
  , { field_name := "is_law_student", selector := "#eligibility-law-student", field_type := FieldType.checkbox, value_for_true := some "checked" }
  , { field_name := "law_student_name", selector := "#eligibility-law-student-name", field_type := FieldType.text }
  ]

def PASSPORT_FIELDS : List FieldMapping :=
  [ { field_name := "client_last_name", selector := "#client-last-name", field_type := FieldType.text, required := true }
  , { field_name := "client_first_name", selector := "#client-first-name", field_type := FieldType.text, required := true }
  , { field_name := "client_middle_name", selector := "#client-middle-name", field_type := FieldType.text }
  , { field_name := "passport_number", selector := "#passport-number", field_type := FieldType.text, required := true }
  , { field_name := "country_of_issue", selector := "#passport-country-issue", field_type := FieldType.text, required := true }
  , { field_name := "date_of_issue", selector := "#passport-date-issue", field_type := FieldType.date, required := true }
  , { field_name := "date_of_expiration", selector := "#passport-date-expiration", field_type := FieldType.date, required := true }
  , { field_name := "date_of_birth", selector := "#client-date-of-birth", field_type := FieldType.date, required := true }
  , { field_name := "place_of_birth", selector := "#client-place-of-birth", field_type := FieldType.text, required := true }
  , { field_name := "sex", selector := "input[name=\"client-sex\"]", field_type := FieldType.radio, required := true }
  , { field_name := "nationality", selector := "#client-nationality", field_type := FieldType.text, required := true }
  , { field_name := "alien_number", selector := "#client-alien-number", field_type := FieldType.text }
  ]

def CLIENT_CONSENT_FIELDS : List FieldMapping :=
  [ { field_name := "notice_to_attorney", selector := "#consent-notice-attorney", field_type := FieldType.checkbox, value_for_true := some "checked" }
  , { field_name := "documents_to_attorney", selector := "#consent-docs-attorney", field_type := FieldType.checkbox, value_for_true := some "checked" }
  , { field_name := "documents_to_client", selector := "#consent-docs-client", field_type := FieldType.checkbox, value_for_true := some "checked" }
  , { field_name := "client_signature_date", selector := "#client-signature-date", field_type := FieldType.date, required := true }
  ]

def ATTORNEY_SIGNATURE_FIELDS : List FieldMapping :=
  [ { field_name := "attorney_signature_date", selector := "#attorney-signature-date", field_type := FieldType.date, required := true }
  ]

/-- `ALL_FIELD_MAPPINGS` from `field_mapping.py`. -/
def ALL_FIELD_MAPPINGS : List FieldMapping :=
  ATTORNEY_FIELDS ++ ELIGIBILITY_FIELDS ++ PASSPORT_FIELDS ++
    CLIENT_CONSENT_FIELDS ++ ATTORNEY_SIGNATURE_FIELDS

/-- `get_field_mapping` from `field_mapping.py` (first match wins). -/
def get_field_mapping (field_name : String) : Option FieldMapping :=
  ALL_FIELD_MAPPINGS.find? (fun m => m.field_name == field_name)

/-- `get_required_fields` from `field_mapping.py`. -/
def get_required_fields : List FieldMapping :=
  ALL_FIELD_MAPPINGS.filter (fun m => m.required)

/-! ## Page-interaction world

Each Playwright page primitive used by `form_a28_page.py` is given a fixed
outcome by a `World`.  `InteractResult.timeout` stands for a raised
`PlaywrightTimeout`, `InteractResult.err msg` for any other exception with
`str(e) = msg`. -/

/-- Outcome of one awaited page interaction. -/
inductive InteractResult
  | ok
  | timeout
  | err (msg : String)
deriving DecidableEq

/-- The page environment: outcome of each Playwright primitive used by the
page object. `query_selector s` tells whether selector `s` matches an
element on the live page. -/
structure World where
  query_selector : String → Bool
  fill : String → String → InteractResult
  select_option : String → String → InteractResult
  check : String → InteractResult
  uncheck : String → InteractResult
  click : String → InteractResult

/-- Python `value is None or value == ""` restricted to a present value:
only the empty string compares equal to `""` (a bool never does). -/
def isEmptyVal : Value → Bool
  | Value.str s => s == ""
  | Value.bool _ => false

/-- Python `value is None or value == ""` on the optional value. -/
def isEmptyValue : Option Value → Bool
  | none => true
  | some v => isEmptyVal v

/-- Python `s.replace(pat, rep)` for a one-character pattern and
replacement: every occurrence of the character is replaced. -/
def replaceChar (pat rep : Char) (s : String) : String :=
  ⟨s.data.map (fun c => if c = pat then rep else c)⟩

namespace FormA28Page

/-- The alternative selector patterns built by
`FormA28Page._try_alternative_selectors`, in source order
(`field_name.replace("_", "-")` and `field_name.replace("_", " ")`). -/
def alternative_selectors (field_name : String) : List String :=
  [ "[name=\"" ++ field_name ++ "\"]"
  , "[data-field=\"" ++ field_name ++ "\"]"
  , "#" ++ replaceChar '_' '-' field_name
  , "input[placeholder*=\"" ++ replaceChar '_' ' ' field_name ++ "\"]"
  ]

/-- `FormA28Page._try_alternative_selectors`: return the first alternative
selector that matches an element, if any. -/
def try_alternative_selectors (w : World) (mapping : FieldMapping) : Option String :=
  (alternative_selectors mapping.field_name).find? w.query_selector

/-- The element-resolution step of `FormA28Page._fill_field` (lines 79-85):
`element = query_selector(selector)`, falling back to
`_try_alternative_selectors` when the primary selector finds nothing.  The
resolved element is represented by the selector that matched it. -/
def resolveElement (w : World) (mapping : FieldMapping) : Option String :=
  if w.query_selector mapping.selector then some mapping.selector
  else try_alternative_selectors w mapping

/-- The kind-specific fill dispatch of `FormA28Page._fill_field`
(lines 97-110) together with the strategy helpers `_fill_text_field`,
`_fill_date_field`, `_fill_select_field`, `_fill_checkbox_field`,
`_fill_radio_field`.  Note the source fills against the mapping's own
`selector` even when the element was resolved via an alternative. -/
def doFill (w : World) (mapping : FieldMapping) (v : Value) : InteractResult :=
  match mapping.field_type with
  | FieldType.text => w.fill mapping.selector v.toStr
  | FieldType.email => w.fill mapping.selector v.toStr
  | FieldType.tel => w.fill mapping.selector v.toStr
  | FieldType.date => w.fill mapping.selector v.toStr
  | FieldType.select => w.select_option mapping.selector v.toStr
  | FieldType.checkbox =>
      if v.toBool then w.check mapping.selector else w.uncheck mapping.selector
  | FieldType.radio =>
      let radio_selector := mapping.selector ++ "[value=\"" ++ v.toStr ++ "\"]"
      if w.query_selector radio_selector then w.check radio_selector
      else w.click radio_selector

/-- The empty-value policy of `FormA28Page._fill_field` (lines 56-76). -/
def emptyValuePolicy (mapping : FieldMapping) : FieldResult :=
  if !mapping.required then
    { fieldName := mapping.field_name, status := FieldStatus.skipped
    , value := none, error := some "Empty optional field" }
  else
    { fieldName := mapping.field_name, status := FieldStatus.failed
    , value := none, error := some "Required field is empty" }

/-- `FormA28Page._fill_field`: the one `FieldResult` appended for this
mapping (its `status` names the list it is appended to). -/
def fill_field (w : World) (mapping : FieldMapping) (value : Option Value) :
    FieldResult :=
  match value with
  | none => emptyValuePolicy mapping
  | some v =>
    if isEmptyVal v then emptyValuePolicy mapping
    else
      match resolveElement w mapping with
      | none =>
        { fieldName := mapping.field_name, status := FieldStatus.skipped
        , value := some v.toStr
        , error := some ("Selector not found: " ++ mapping.selector) }
      | some _ =>
        match doFill w mapping v with
        | InteractResult.ok =>
          { fieldName := mapping.field_name, status := FieldStatus.filled
          , value := some v.toStr, error := none }
        | InteractResult.timeout =>
          { fieldName := mapping.field_name, status := FieldStatus.failed
          , value := some v.toStr, error := some "Timeout waiting for element" }
        | InteractResult.err msg =>
          { fieldName := mapping.field_name, status := FieldStatus.failed
          , value := some v.toStr, error := some msg }

/-- The three outcome lists of a `FormA28Page` object. -/
structure PageState where
  filled_fields : List FieldResult
  skipped_fields : List FieldResult
  failed_fields : List FieldResult
deriving DecidableEq

/-- Appending one `FieldResult` to the list its status designates, as the
`append` calls inside `_fill_field` do. -/
def record_outcome (st : PageState) (r : FieldResult) : PageState :=
  match r.status with
  | FieldStatus.filled => { st with filled_fields := st.filled_fields ++ [r] }
  | FieldStatus.skipped => { st with skipped_fields := st.skipped_fields ++ [r] }
  | FieldStatus.failed => { st with failed_fields := st.failed_fields ++ [r] }

/-- `FormA28Page.fill_form`: iterate `ALL_FIELD_MAPPINGS`, fetching each
mapping's value from the record and filling the field. -/
def fill_form (w : World) (data : Record) : PageState :=
  ALL_FIELD_MAPPINGS.foldl
    (fun st mapping =>
      record_outcome st (fill_field w mapping (Record.get data mapping.field_name)))
    { filled_fields := [], skipped_fields := [], failed_fields := [] }

/-- Python substring containment `needle in haystack`, on character lists. -/
def strIn (needle : List Char) : List Char → Bool
  | [] => needle.isEmpty
  | c :: rest => needle.isPrefixOf (c :: rest) || strIn needle rest

/-- `FormA28Page.verify_no_submit`:
`self.form_url in current_url or current_url == self.form_url`. -/
def verify_no_submit (form_url current_url : String) : Bool :=
  strIn form_url.data current_url.data || current_url == form_url

end FormA28Page

/-! ## Browser manager (`automation.py`, class `BrowserManager`)

The singleton's mutable state is `cls._instance : Option Manager`; the two
awaited initialization steps (`async_playwright().start()` and
`chromium.launch(...)`) are given outcomes by an `InitWorld`.  The class
lock serializes callers, so one `get_instance` call is one atomic state
transition. -/

namespace BrowserManager

/-- The fields of one `BrowserManager` object: whether `self._playwright`
and `self._browser` are set (non-`None`), and `self._headless`. -/
structure Manager where
  playwrightStarted : Bool
  browserLaunched : Bool
  headless : Bool
deriving DecidableEq

/-- Outcomes of the two awaited steps of `BrowserManager._initialize`. -/
structure InitWorld where
  startResult : Except String Unit
  launchResult : Except String Unit

/-- `BrowserManager.get_instance` (with `_initialize` inlined): returns
what the call returns (or the exception it raises) together with the value
of `cls._instance` afterwards.  The source assigns `cls._instance` before
awaiting `_initialize()`, so a raised initialization error leaves the
assignment in place. -/
def get_instance (w : InitWorld) (inst : Option Manager) (headless : Bool) :
    Except String Manager × Option Manager :=
  match inst with
  | some m => (Except.ok m, some m)
  | none =>
    let m0 : Manager :=
      { playwrightStarted := false, browserLaunched := false, headless := headless }
    match w.startResult with
    | Except.error e => (Except.error e, some m0)
    | Except.ok _ =>
      let m1 : Manager := { m0 with playwrightStarted := true }
      match w.launchResult with
      | Except.error e => (Except.error e, some m1)
      | Except.ok _ =>
        let m2 : Manager := { m1 with browserLaunched := true }
        (Except.ok m2, some m2)

/-- `BrowserManager.shutdown`: closes everything and clears
`cls._instance`. -/
def shutdown (_inst : Option Manager) : Option Manager := none

/-- The guard at the top of `BrowserManager.new_context`:
`if not self._browser: raise RuntimeError("Browser not initialized")`. -/
def new_context_guard (m : Manager) : Except String Unit :=
  if !m.browserLaunched then Except.error "Browser not initialized"
  else Except.ok ()

end BrowserManager

/-! ## The fill operation (`automation.py`, function `fill_form`) -/

/-- Context lifecycle events, to state the scoped-release guarantee of
`BrowserManager.new_context` (its `try`/`finally`). -/
inductive Event
  | ctxOpened
  | ctxClosed
deriving DecidableEq

/-- The environment of one `fill_form` call: the outcome of each awaited
operation-level step, the page world for the per-field interactions, the
page URL observed by the submission guard, and the measured elapsed time.
An `Except.error e` outcome stands for that step raising an exception with
`str(e) = e`. -/
structure OpWorld where
  getInstance : Except String Unit
  newContext : Except String Unit
  newPage : Except String Unit
  goto : Except String Unit
  pageWorld : World
  currentUrl : String
  screenshot : Except String String
  elapsedMs : Nat

/-- `Except.isOk` for the `Except String` results used here. -/
def isOkE {α : Type} : Except String α → Bool
  | Except.ok _ => true
  | Except.error _ => false

namespace Automation

/-- The `try`-block of `automation.fill_form`, paired with the context
lifecycle events.  The `async with manager.new_context()` block guarantees
`context.close()` (the `finally` of `new_context`) runs on every exit from
the block, so whenever the context was created both events are emitted. -/
def fill_form_try (w : OpWorld) (form_url : String) (data : Record) :
    Except String FillResult × List Event :=
  match w.getInstance with
  | Except.error e => (Except.error e, [])
  | Except.ok _ =>
    match w.newContext with
    | Except.error e => (Except.error e, [])
    | Except.ok _ =>
      let inner : Except String FillResult :=
        match w.newPage with
        | Except.error e => Except.error e
        | Except.ok _ =>
          match w.goto with
          | Except.error e => Except.error e
          | Except.ok _ =>
            let st := FormA28Page.fill_form w.pageWorld data
            if FormA28Page.verify_no_submit form_url w.currentUrl then
              match w.screenshot with
              | Except.error e => Except.error e
              | Except.ok shot =>
                Except.ok
                  { success := st.failed_fields.isEmpty
                  , filledFields := st.filled_fields
                  , skippedFields := st.skipped_fields
                  , failedFields := st.failed_fields
                  , screenshotBase64 := some shot
                  , durationMs := w.elapsedMs
                  , error := none }
            else Except.error "Form appears to have been submitted unexpectedly"
      (inner, [Event.ctxOpened, Event.ctxClosed])

/-- `automation.fill_form`: the `try`-block result, with the
`except Exception` clause converting any raised error into a report with
empty lists, no screenshot, `success = False` and `error = str(e)`. -/
def fill_form (w : OpWorld) (form_url : String) (data : Record) :
    FillResult × List Event :=
  match fill_form_try w form_url data with
  | (Except.ok res, evs) => (res, evs)
  | (Except.error e, evs) =>
    ( { success := false, filledFields := [], skippedFields := []
      , failedFields := [], screenshotBase64 := none
      , durationMs := w.elapsedMs, error := some e }
    , evs )

end Automation

/-- The run reached the submission guard: every operation-level step before
the guard succeeded (so per-field processing ran to completion). -/
def reachedGuard (w : OpWorld) : Bool :=
  isOkE w.getInstance && isOkE w.newContext && isOkE w.newPage && isOkE w.goto

/-- The submission guard ran and passed. -/
def guardPassed (w : OpWorld) (form_url : String) : Bool :=
  reachedGuard w && FormA28Page.verify_no_submit form_url w.currentUrl

/-! ## Observables and concrete fixtures used by the theorems -/

/-- How many results in a list carry the given field name. -/
def countName (l : List FieldResult) (name : String) : Nat :=
  l.countP (fun r => r.fieldName == name)

/-- Total occurrences of a field name across the three outcome lists. -/
def totalCount (st : FormA28Page.PageState) (name : String) : Nat :=
  countName st.filled_fields name + countName st.skipped_fields name +
    countName st.failed_fields name

/-- A page on which every selector matches and every interaction
succeeds. -/
def trivialWorld : World :=
  { query_selector := fun _ => true
  , fill := fun _ _ => InteractResult.ok
  , select_option := fun _ _ => InteractResult.ok
  , check := fun _ => InteractResult.ok
  , uncheck := fun _ => InteractResult.ok
  , click := fun _ => InteractResult.ok }

/-- A page on which no selector matches anything. -/
def noneFoundWorld : World := { trivialWorld with query_selector := fun _ => false }

/-- A page on which text fills raise `PlaywrightTimeout`. -/
def timeoutWorld : World :=
  { trivialWorld with fill := fun _ _ => InteractResult.timeout }

/-- A page on which only the `[data-field="city"]` selector matches. -/
def dataFieldWorld : World :=
  { trivialWorld with query_selector := fun s => s == "[data-field=\"city\"]" }

/-- A record supplying no field at all. -/
def emptyRecord : Record := []

/-- The `city` registry entry (required text field). -/
def cityMapping : FieldMapping :=
  { field_name := "city", selector := "#attorney-city"
  , field_type := FieldType.text, required := true }

/-- The `email` registry entry (optional email field). -/
def emailMapping : FieldMapping :=
  { field_name := "email", selector := "#attorney-email"
  , field_type := FieldType.email }

/-! ## Helper lemmas -/

/-- Every branch of `_fill_field` records the mapping's own field name. -/
lemma fill_field_fieldName (w : World) (mapping : FieldMapping)
    (value : Option Value) :
    (FormA28Page.fill_field w mapping value).fieldName = mapping.field_name := by
  unfold FormA28Page.fill_field FormA28Page.emptyValuePolicy
  cases value
  all_goals dsimp only
  all_goals repeat' first | rfl | split

lemma record_outcome_totalCount (st : FormA28Page.PageState) (r : FieldResult)
    (name : String) :
    totalCount (FormA28Page.record_outcome st r) name =
      totalCount st name + (if r.fieldName == name then 1 else 0) := by
  rcases r with ⟨fn, s, v, e⟩
  cases s <;>
    simp [FormA28Page.record_outcome, totalCount, countName,
      List.countP_append, List.countP_cons] <;>
    split <;> omega

lemma fill_fold_totalCount (w : World) (data : Record) (name : String) :
    ∀ (ms : List FieldMapping) (st : FormA28Page.PageState),
      totalCount
        (ms.foldl
          (fun st mapping => FormA28Page.record_outcome st
            (FormA28Page.fill_field w mapping (Record.get data mapping.field_name)))
          st) name =
        totalCount st name + ms.countP (fun m => m.field_name == name) := by
  intro ms
  induction ms with
  | nil => intro st; simp
  | cons m rest ih =>
    intro st
    rw [List.foldl_cons, List.countP_cons, ih, record_outcome_totalCount,
      fill_field_fieldName]
    by_cases h : m.field_name == name
    all_goals simp [h]
    all_goals omega

lemma total_length_record_outcome (st : FormA28Page.PageState) (r : FieldResult) :
    (FormA28Page.record_outcome st r).filled_fields.length +
      (FormA28Page.record_outcome st r).skipped_fields.length +
      (FormA28Page.record_outcome st r).failed_fields.length =
    (st.filled_fields.length + st.skipped_fields.length +
      st.failed_fields.length) + 1 := by
  rcases r with ⟨fn, s, v, e⟩
  cases s <;> simp [FormA28Page.record_outcome] <;> omega

lemma fill_fold_total_length (w : World) (data : Record) :
    ∀ (ms : List FieldMapping) (st : FormA28Page.PageState),
      ((ms.foldl
        (fun st mapping => FormA28Page.record_outcome st
          (FormA28Page.fill_field w mapping (Record.get data mapping.field_name)))
        st).filled_fields.length +
      (ms.foldl
        (fun st mapping => FormA28Page.record_outcome st
          (FormA28Page.fill_field w mapping (Record.get data mapping.field_name)))
        st).skipped_fields.length +
      (ms.foldl
        (fun st mapping => FormA28Page.record_outcome st
          (FormA28Page.fill_field w mapping (Record.get data mapping.field_name)))
        st).failed_fields.length) =
      (st.filled_fields.length + st.skipped_fields.length +
        st.failed_fields.length) + ms.length := by
  intro ms
  induction ms with
  | nil => intro st; simp
  | cons m rest ih =>
    intro st
    rw [List.foldl_cons, ih, total_length_record_outcome, List.length_cons]
    omega

lemma find?_first_match (p : String → Bool) :
    ∀ (pre : List String) (s : String) (post : List String),
      (∀ t ∈ pre, p t = false) → p s = true →
      (pre ++ s :: post).find? p = some s := by
  intro pre
  induction pre with
  | nil =>
    intro s post _ hs
    simpa using List.find?_cons_of_pos post hs
  | cons a rest ih =>
    intro s post hpre hs
    have ha : p a = false := hpre a (by simp)
    rw [List.cons_append, List.find?_cons_of_neg _ (by simp [ha])]
    exact ih s post (fun t ht => hpre t (by simp [ht])) hs

lemma strIn_iff (needle haystack : List Char) :
    FormA28Page.strIn needle haystack = true ↔ needle <:+: haystack := by
  induction haystack with
  | nil => simp [FormA28Page.strIn, List.isEmpty_iff]
  | cons c rest ih =>
    simp [FormA28Page.strIn, Bool.or_eq_true, ih,
      List.isPrefixOf_iff_prefix, List.infix_cons_iff]

/-! ## Claim theorems -/

/-- C1: for every fill that completes per-field processing, every field
name in the mapping registry appears in exactly one of the report's
Filled/Skipped/Failed lists: each mapping is processed at most once, no
mapping appears in two lists, and no mapping is silently dropped. -/
theorem c1_outcome_lists_partition_mappings (w : World) (data : Record)
    (name : String)
    (h : name ∈ ALL_FIELD_MAPPINGS.map FieldMapping.field_name) :
    totalCount (FormA28Page.fill_form w data) name = 1 := by
  have hfold := fill_fold_totalCount w data name ALL_FIELD_MAPPINGS
    { filled_fields := [], skipped_fields := [], failed_fields := [] }
  have hnd : (ALL_FIELD_MAPPINGS.map FieldMapping.field_name).Nodup := by decide
  have hcount := List.count_eq_one_of_mem hnd h
  rw [List.count_eq_countP, List.countP_map] at hcount
  unfold FormA28Page.fill_form
  rw [hfold]
  simpa [totalCount, countName, Function.comp] using hcount

/-- C1 witness: on a concrete world and record, the registry name `city`
appears exactly once across the three lists. -/
theorem c1_outcome_lists_partition_witness :
    totalCount (FormA28Page.fill_form trivialWorld emptyRecord) "city" = 1 :=
  c1_outcome_lists_partition_mappings trivialWorld emptyRecord "city" (by decide)

/-- C3: for every mapping whose candidate value is absent or the empty
string, a required mapping yields Failed with the code's reason
`"Required field is empty"` and an optional mapping yields Skipped with
reason `"Empty optional field"` (never Failed); the right-hand sides do
not mention the page world `w`, so no locator resolution is attempted in
either case. -/
theorem c3_empty_value_policy (w : World) (mapping : FieldMapping)
    (value : Option Value) (h : isEmptyValue value = true) :
    (mapping.required = true →
      FormA28Page.fill_field w mapping value =
        { fieldName := mapping.field_name, status := FieldStatus.failed
        , value := none, error := some "Required field is empty" }) ∧
    (mapping.required = false →
      FormA28Page.fill_field w mapping value =
        { fieldName := mapping.field_name, status := FieldStatus.skipped
        , value := none, error := some "Empty optional field" }) := by
  cases value with
  | none =>
    constructor <;> intro hr <;>
      simp [FormA28Page.fill_field, FormA28Page.emptyValuePolicy, hr]
  | some v =>
    have hv : isEmptyVal v = true := by simpa [isEmptyValue] using h
    constructor <;> intro hr <;>
      simp [FormA28Page.fill_field, hv, FormA28Page.emptyValuePolicy, hr]

/-- C3 witness: the required `city` mapping with an absent value fails
with "Required field is empty"; the optional `email` mapping with the
empty string is skipped with "Empty optional field". -/
theorem c3_empty_value_policy_witness :
    FormA28Page.fill_field trivialWorld cityMapping none =
      { fieldName := "city", status := FieldStatus.failed
      , value := none, error := some "Required field is empty" } ∧
    FormA28Page.fill_field trivialWorld emailMapping (some (Value.str "")) =
      { fieldName := "email", status := FieldStatus.skipped
      , value := none, error := some "Empty optional field" } :=
  ⟨(c3_empty_value_policy trivialWorld cityMapping none (by decide)).1 rfl,
   (c3_empty_value_policy trivialWorld emailMapping (some (Value.str ""))
      (by decide)).2 rfl⟩

/-- C4: for a mapping with a non-empty value, locator resolution first
tries the mapping's own selector; when that finds nothing it walks the
fixed fallback chain `[name="f"]`, `[data-field="f"]`, `#f-with-hyphens`,
`input[placeholder*="f with spaces"]` in that order and uses the first
selector that matches; when nothing matches the outcome is Skipped with
the code's reason `"Selector not found: <selector>"` — never Failed, the
right-hand side being independent of `mapping.required`. -/
theorem c4_locator_fallback_chain (w : World) (mapping : FieldMapping)
    (v : Value) (hv : isEmptyVal v = false) :
    (FormA28Page.alternative_selectors mapping.field_name =
      [ "[name=\"" ++ mapping.field_name ++ "\"]"
      , "[data-field=\"" ++ mapping.field_name ++ "\"]"
      , "#" ++ replaceChar '_' '-' mapping.field_name
      , "input[placeholder*=\"" ++ replaceChar '_' ' ' mapping.field_name ++ "\"]" ]) ∧
    (w.query_selector mapping.selector = true →
      FormA28Page.resolveElement w mapping = some mapping.selector) ∧
    (w.query_selector mapping.selector = false →
      ∀ pre s post,
        FormA28Page.alternative_selectors mapping.field_name = pre ++ s :: post →
        (∀ t ∈ pre, w.query_selector t = false) → w.query_selector s = true →
        FormA28Page.resolveElement w mapping = some s) ∧
    (FormA28Page.resolveElement w mapping = none →
      FormA28Page.fill_field w mapping (some v) =
        { fieldName := mapping.field_name, status := FieldStatus.skipped
        , value := some v.toStr
        , error := some ("Selector not found: " ++ mapping.selector) }) := by
  refine ⟨rfl, ?_, ?_, ?_⟩
  · intro hq
    simp [FormA28Page.resolveElement, hq]
  · intro hq pre s post hlist hpre hs
    rw [FormA28Page.resolveElement, if_neg (by simp [hq]),
      FormA28Page.try_alternative_selectors, hlist]
    exact find?_first_match w.query_selector pre s post hpre hs
  · intro hres
    simp [FormA28Page.fill_field, hv, hres]

/-- C4 witness: for the required `city` mapping with value
`"Springfield"`, a page matching only `[data-field="city"]` resolves via
the second fallback selector, and a page matching nothing yields Skipped
(not Failed) with "Selector not found: #attorney-city". -/
theorem c4_locator_fallback_chain_witness :
    FormA28Page.resolveElement dataFieldWorld cityMapping =
      some "[data-field=\"city\"]" ∧
    FormA28Page.fill_field noneFoundWorld cityMapping
        (some (Value.str "Springfield")) =
      { fieldName := "city", status := FieldStatus.skipped
      , value := some "Springfield"
      , error := some "Selector not found: #attorney-city" } :=
  ⟨(c4_locator_fallback_chain dataFieldWorld cityMapping (Value.str "Springfield")
      (by decide)).2.2.1 (by decide)
      ["[name=\"city\"]"] "[data-field=\"city\"]"
      ["#city", "input[placeholder*=\"city\"]"] (by decide) (by decide) (by decide),
   (c4_locator_fallback_chain noneFoundWorld cityMapping (Value.str "Springfield")
      (by decide)).2.2.2 (by decide)⟩

/-- C8: for a mapping that reaches the fill step (value non-empty,
element resolved), a `PlaywrightTimeout` yields Failed with the code's
reason `"Timeout waiting for element"` and any other exception yields
Failed with `str(e)` as reason; and processing never aborts: every run of
the per-field loop produces exactly one outcome per registry mapping, so
one field's failure never prevents the remaining mappings from being
processed. -/
theorem c8_per_field_failure_isolation :
    (∀ (w : World) (mapping : FieldMapping) (v : Value),
      isEmptyVal v = false → (FormA28Page.resolveElement w mapping).isSome = true →
      (FormA28Page.doFill w mapping v = InteractResult.timeout →
        FormA28Page.fill_field w mapping (some v) =
          { fieldName := mapping.field_name, status := FieldStatus.failed
          , value := some v.toStr
          , error := some "Timeout waiting for element" }) ∧
      (∀ msg, FormA28Page.doFill w mapping v = InteractResult.err msg →
        FormA28Page.fill_field w mapping (some v) =
          { fieldName := mapping.field_name, status := FieldStatus.failed
          , value := some v.toStr, error := some msg })) ∧
    (∀ (w : World) (data : Record),
      (FormA28Page.fill_form w data).filled_fields.length +
        (FormA28Page.fill_form w data).skipped_fields.length +
        (FormA28Page.fill_form w data).failed_fields.length =
      ALL_FIELD_MAPPINGS.length) := by
  constructor
  · intro w mapping v hv hres
    obtain ⟨sel, hsel⟩ := Option.isSome_iff_exists.mp hres
    constructor
    · intro hto
      simp [FormA28Page.fill_field, hv, hsel, hto]
    · intro msg herr
      simp [FormA28Page.fill_field, hv, hsel, herr]
  · intro w data
    have h := fill_fold_total_length w data ALL_FIELD_MAPPINGS
      { filled_fields := [], skipped_fields := [], failed_fields := [] }
    unfold FormA28Page.fill_form
    simpa using h

/-- C8 witness: on a page where the text fill times out, the required
`city` mapping with value "Springfield" fails with
"Timeout waiting for element". -/
theorem c8_per_field_failure_isolation_witness :
    FormA28Page.fill_field timeoutWorld cityMapping (some (Value.str "Springfield")) =
      { fieldName := "city", status := FieldStatus.failed
      , value := some "Springfield"
      , error := some "Timeout waiting for element" } :=
  (c8_per_field_failure_isolation.1 timeoutWorld cityMapping
      (Value.str "Springfield") (by decide) (by decide)).1 rfl

/-- C10: `verify_no_submit` returns true exactly when the configured form
URL occurs as a substring of the page's current URL (the extra equality
disjunct in the source is subsumed); so a URL that merely contains the
form URL is not reported as a submission, while a URL not containing it
is. -/
theorem c10_verify_no_submit_substring (form_url current_url : String) :
    (FormA28Page.verify_no_submit form_url current_url = true ↔
      form_url.data <:+: current_url.data) ∧
    FormA28Page.verify_no_submit form_url current_url =
      FormA28Page.strIn form_url.data current_url.data := by
  have hsub : FormA28Page.verify_no_submit form_url current_url =
      FormA28Page.strIn form_url.data current_url.data := by
    by_cases h : current_url = form_url
    · subst h
      have hself : FormA28Page.strIn current_url.data current_url.data = true :=
        (strIn_iff current_url.data current_url.data).mpr List.infix_rfl
      simp [FormA28Page.verify_no_submit, hself]
    · simp [FormA28Page.verify_no_submit, h]
  exact ⟨by rw [hsub]; exact strIn_iff form_url.data current_url.data, hsub⟩

/-! ## Operation-level fixtures and lemmas -/

/-- The form URL used by the concrete operation-level fixtures. -/
def theFormUrl : String := "https://form.example/"

/-- An operation world in which every step succeeds and the page stays on
the form. -/
def allOkWorld : OpWorld :=
  { getInstance := Except.ok (), newContext := Except.ok ()
  , newPage := Except.ok (), goto := Except.ok ()
  , pageWorld := trivialWorld, currentUrl := "https://form.example/"
  , screenshot := Except.ok "img64", elapsedMs := 5 }

/-- Like `allOkWorld` but the final screenshot raises. -/
def shotFailWorld : OpWorld :=
  { allOkWorld with screenshot := Except.error "screenshot capture failed" }

/-- Like `allOkWorld` but the page navigated away before the guard. -/
def guardFailWorld : OpWorld :=
  { allOkWorld with currentUrl := "https://elsewhere.example/thanks" }

/-- Like `allOkWorld` but navigation to the form raises. -/
def gotoFailWorld : OpWorld :=
  { allOkWorld with goto := Except.error "net::ERR_CONNECTION_REFUSED" }

lemma fill_form_events (w : OpWorld) (form_url : String) (data : Record) :
    (Automation.fill_form w form_url data).2 =
      (Automation.fill_form_try w form_url data).2 := by
  unfold Automation.fill_form
  rcases h : Automation.fill_form_try w form_url data with ⟨r, evs⟩
  cases r <;> rfl

lemma fill_form_try_events (w : OpWorld) (form_url : String) (data : Record) :
    (Automation.fill_form_try w form_url data).2 = [] ∨
    (Automation.fill_form_try w form_url data).2 =
      [Event.ctxOpened, Event.ctxClosed] := by
  unfold Automation.fill_form_try
  cases w.getInstance
  · simp
  · cases w.newContext <;> simp

/-! ## Operation-level claim theorems -/

/-- C2 counterexample: on a run where every step up to and including the
submission guard succeeds but the screenshot capture raises, the report
has an empty Failed list and the guard passed, yet `success` is false —
so "success iff Failed empty and guard passed" is violated as stated. -/
theorem c2_success_iff_counterexample :
    ¬ (((Automation.fill_form shotFailWorld theFormUrl emptyRecord).1.success = true) ↔
       ((Automation.fill_form shotFailWorld theFormUrl emptyRecord).1.failedFields = [] ∧
        guardPassed shotFailWorld theFormUrl = true)) := by
  decide

/-- C2 amended: for every run, `success` is true iff the submission guard
ran and passed, the screenshot capture succeeded, and the report's Failed
list is empty; `success` is never set independently of these. -/
theorem c2_success_equation_amended (w : OpWorld) (form_url : String)
    (data : Record) :
    (Automation.fill_form w form_url data).1.success =
      (guardPassed w form_url && isOkE w.screenshot &&
        (Automation.fill_form w form_url data).1.failedFields.isEmpty) := by
  obtain ⟨gi, nc, np, gt, pw, cu, ss, em⟩ := w
  cases gi <;> cases nc <;> cases np <;> cases gt <;>
    simp [Automation.fill_form, Automation.fill_form_try, guardPassed,
      reachedGuard, isOkE]
  by_cases hv : FormA28Page.verify_no_submit form_url cu
  · cases ss <;> simp [hv, isOkE]
  · simp [hv]

/-- C5 counterexample: on a run where navigation and all per-field
processing completed and only the submission guard failed, the report's
top-level `error` is set — contradicting "error is set only when the
operation aborted before per-field processing completed". -/
theorem c5_error_field_counterexample :
    reachedGuard guardFailWorld = true ∧
    (Automation.fill_form guardFailWorld theFormUrl emptyRecord).1.error =
      some "Form appears to have been submitted unexpectedly" := by
  decide

/-- C5 amended: the report's `error` is null exactly when the whole
operation ran to normal completion; it is set on every aborted run,
including aborts that happen after per-field processing completed
(submission-guard failure or screenshot failure). -/
theorem c5_error_iff_aborted_amended (w : OpWorld) (form_url : String)
    (data : Record) :
    ((Automation.fill_form w form_url data).1.error).isNone =
      isOkE (Automation.fill_form_try w form_url data).1 := by
  obtain ⟨gi, nc, np, gt, pw, cu, ss, em⟩ := w
  cases gi <;> cases nc <;> cases np <;> cases gt <;>
    simp [Automation.fill_form, Automation.fill_form_try, isOkE]
  by_cases hv : FormA28Page.verify_no_submit form_url cu
  · cases ss <;> simp [hv, isOkE]
  · simp [hv]

/-- C7: on every run that emits the context-opened event (i.e. actually
created an execution context), the context-closed event is also emitted —
the `finally` of `new_context` runs on every exit path, for every world,
including navigation failure, guard failure and screenshot failure. -/
theorem c7_context_released (w : OpWorld) (form_url : String) (data : Record)
    (h : Event.ctxOpened ∈ (Automation.fill_form w form_url data).2) :
    Event.ctxClosed ∈ (Automation.fill_form w form_url data).2 := by
  rw [fill_form_events] at h ⊢
  rcases fill_form_try_events w form_url data with hev | hev <;> rw [hev] at h ⊢
  · simp at h
  · simp

/-- C7 witness: a run whose navigation step raises still closes the
context it opened. -/
theorem c7_context_released_witness :
    Event.ctxClosed ∈ (Automation.fill_form gotoFailWorld theFormUrl emptyRecord).2 :=
  c7_context_released gotoFailWorld theFormUrl emptyRecord (by decide)

/-- C9: whenever any step of the operation raises (session acquisition,
context creation, page creation, navigation, guard, capture), the caller
still receives a fully-populated report with `success = false` and
`error` set to the exception text — the fault never propagates. -/
theorem c9_exceptions_become_reports (w : OpWorld) (form_url : String)
    (data : Record) (e : String)
    (h : (Automation.fill_form_try w form_url data).1 = Except.error e) :
    (Automation.fill_form w form_url data).1 =
      { success := false, filledFields := [], skippedFields := []
      , failedFields := [], screenshotBase64 := none
      , durationMs := w.elapsedMs, error := some e } := by
  unfold Automation.fill_form
  rcases hp : Automation.fill_form_try w form_url data with ⟨r, evs⟩
  rw [hp] at h
  cases r with
  | ok res => exact absurd h (by simp)
  | error e2 =>
    have he : e2 = e := by simpa using h
    subst he
    rfl

/-- C9 witness: a run whose navigation raises yields the recovery report
with the exception text. -/
theorem c9_exceptions_become_reports_witness :
    (Automation.fill_form gotoFailWorld theFormUrl emptyRecord).1 =
      { success := false, filledFields := [], skippedFields := []
      , failedFields := [], screenshotBase64 := none
      , durationMs := 5, error := some "net::ERR_CONNECTION_REFUSED" } :=
  c9_exceptions_become_reports gotoFailWorld theFormUrl emptyRecord
    "net::ERR_CONNECTION_REFUSED" rfl

/-! ## Browser-manager initialization failure (C6) -/

/-- An init world where the Playwright driver starts but the browser
launch raises. -/
def launchFailWorld : BrowserManager.InitWorld :=
  { startResult := Except.ok (), launchResult := Except.error "browser launch failed" }

/-- An init world where initialization would succeed. -/
def initOkWorld : BrowserManager.InitWorld :=
  { startResult := Except.ok (), launchResult := Except.ok () }

/-- The half-initialized manager left behind by a failed launch. -/
def brokenManager : BrowserManager.Manager :=
  { playwrightStarted := true, browserLaunched := false, headless := true }

/-- C6 (code bug): a failed browser launch during the first
`get_instance` surfaces to the caller, but `cls._instance` stays assigned
to the half-initialized manager; the next `get_instance` returns that
manager without re-attempting initialization, and its `new_context`
raises "Browser not initialized" — contradicting the required
cleanup-on-partial-failure / no-poisoned-state semantics. -/
theorem c6_init_failure_poisons_singleton :
    (BrowserManager.get_instance launchFailWorld none true).1 =
      Except.error "browser launch failed" ∧
    (BrowserManager.get_instance launchFailWorld none true).2 =
      some brokenManager ∧
    (BrowserManager.get_instance initOkWorld (some brokenManager) true).1 =
      Except.ok brokenManager ∧
    brokenManager.browserLaunched = false ∧
    BrowserManager.new_context_guard brokenManager =
      Except.error "Browser not initialized" :=
  ⟨rfl, rfl, rfl, rfl, rfl⟩
